import Mathlib

/-!
Verification development for `cape/cfdx/archivist.py`, the case-archiving
and retention engine of the `cape` repository.

The Python module is shallowly embedded below.  Filesystem queries
(`os.path.isfile`, `os.path.isdir`, `os.path.getmtime`, `glob.glob`, the
regex walker `rematch`) are passed in as explicit oracle parameters, so
every definition is a pure, executable function of its inputs.
Modification times are modelled as natural numbers (the code only
compares them).  Log and warning messages keep the source's wording
except that quote characters around interpolated file names are omitted.
-/

/-- Exceptions raised by the embedded code: `ValueError`,
`FileNotFoundError`, and `TypeError` (the error Python raises when a
call supplies more positional arguments than the callee accepts). -/
inductive PyErr where
  | valueError
  | fileNotFoundError
  | typeError
deriving DecidableEq

/-- POSIX `os.path.isabs`: a path is absolute iff it starts with the
path separator.  (Stated on the character list so that proofs can
evaluate it.) -/
def isabs (fname : String) : Bool :=
  ['/'].isPrefixOf fname.data

/-- Whether a path ends with the POSIX path separator. -/
def endsWithSep (a : String) : Bool :=
  ['/'].isSuffixOf a.data

/-- POSIX `os.path.join` for two components: if the second component is
absolute it replaces the first; otherwise the two are joined with a
separator (none added when the first part is empty or already ends in
the separator). -/
def pyjoin (a b : String) : String :=
  if isabs b then b
  else if a = "" then b
  else if endsWithSep a then a ++ b
  else a ++ "/" ++ b

/-- `casename.split('/')`, stated on the character list so that proofs
can evaluate it. -/
def splitSlash (s : String) : List String :=
  (s.data.splitOn '/').map fun cs => String.mk cs

/-- Python slice `l[:j]` with a single (possibly negative) bound `j`,
with CPython's clamping: a negative bound counts from the end of the
list, and out-of-range bounds are clipped. -/
def pySliceTo {α : Type} (l : List α) (j : Int) : List α :=
  if j < 0 then l.take (l.length - (-j).toNat) else l.take j.toNat

/-- Python slice `l[i:]` with a single (possibly negative) bound `i`,
with CPython's clamping. -/
def pySliceFrom {α : Type} (l : List α) (i : Int) : List α :=
  if i < 0 then l.drop (l.length - (-i).toNat) else l.drop i.toNat

/-- The module constant `SAFETY_LEVELS`. -/
def SAFETY_LEVELS : List String :=
  ["none", "status", "report", "restart"]

/-- `_validate_safety_level`: raise `ValueError` unless the name is one
of `SAFETY_LEVELS`. -/
def validate_safety_level (safety : String) : Except PyErr Unit :=
  if SAFETY_LEVELS.contains safety then Except.ok () else Except.error PyErr.valueError

/-- `CaseArchivist.assert_archive`: return immediately in test mode,
otherwise raise `FileNotFoundError` when the archive root is not a
directory.  The oracle `isdir_archivedir` is `os.path.isdir(self.archivedir)`. -/
def assert_archive (isdir_archivedir : Bool) (test : Bool) : Except PyErr Unit :=
  if test then Except.ok ()
  else if isdir_archivedir then Except.ok ()
  else Except.error PyErr.fileNotFoundError

/-- `CaseArchivist.begin(safety, test)`: validate the safety level
(raising `ValueError` on a bad name), store `_test` and `_safety`, run
`assert_archive`, and then execute the statement
`self.make_case_archivedir(test)`.  That statement passes one positional
argument, but the method is defined as `def make_case_archivedir(self):`
and accepts none, so Python raises `TypeError` at the call site on every
invocation that reaches it; the lines that would reset `_size` and
`_deleted_files` are never executed.  The embedding returns that
`TypeError` accordingly. -/
def begin (isdir_archivedir : Bool) (safety : String) (test : Bool) : Except PyErr Unit :=
  match validate_safety_level safety with
  | Except.error e => Except.error e
  | Except.ok _ =>
    match assert_archive isdir_archivedir test with
    | Except.error e => Except.error e
    | Except.ok _ => Except.error PyErr.typeError

/-- The split computed inside `delete_files` / `delete_dirs` for one
group's match list: `n == 0` removes everything and keeps nothing;
otherwise `rmfiles = mtchs[:-n]` and `keepfiles = mtchs[-n:]`. -/
def delete_split (mtchs : List String) (n : Int) : List String × List String :=
  if n = 0 then (mtchs, [])
  else (pySliceTo mtchs (-n), pySliceFrom mtchs (-n))

/-- `CaseArchivist.delete_files(matchdict, n)`: for each regex group, the
names in the first list are passed to `delete_file` and the names in the
second list to `keep_file`, in invocation order.  (`delete_file` itself
performs per-path type and safety checks; those are modelled separately.) -/
def delete_files (matchdict : List (String × List String)) (n : Int) :
    List String × List String :=
  (matchdict.flatMap fun gp => (delete_split gp.2 n).1,
   matchdict.flatMap fun gp => (delete_split gp.2 n).2)

/-- `CaseArchivist.delete_dirs(matchdict, n)`: identical split logic to
`delete_files`; the first list is passed to `delete_dir`. -/
def delete_dirs (matchdict : List (String × List String)) (n : Int) :
    List String × List String :=
  (matchdict.flatMap fun gp => (delete_split gp.2 n).1,
   matchdict.flatMap fun gp => (delete_split gp.2 n).2)

/-- `CaseArchivist.archive_files(matchdict, n)`: the names passed to
`archive_file`, in invocation order.  For `n < 0` the code copies
`mtchs[:-n]` (the oldest `abs(n)`), otherwise `mtchs[-n:]` (the newest
`n`, or everything when `n == 0`). -/
def archive_files (matchdict : List (String × List String)) (n : Int) : List String :=
  matchdict.flatMap fun gp =>
    if n < 0 then pySliceTo gp.2 (-n) else pySliceFrom gp.2 (-n)

/-- `CaseArchivist._search_targroups(searchopt)`: for each pattern and
count in `searchopt`, run `self.search` (passed here as the oracle
`searchf`) and retain `mtchs[:-n]` for `n < 0`, else `mtchs[-n:]`,
extending one flat member list. -/
def search_targroups (searchf : String → List (String × List String))
    (searchopt : List (String × Int)) : List String :=
  searchopt.flatMap fun pn =>
    (searchf pn.1).flatMap fun gp =>
      if pn.2 < 0 then pySliceTo gp.2 (-pn.2) else pySliceFrom gp.2 (-pn.2)

/-- Modelled from the spec, section 4.3: `select(M, n)` is all of `M`
for `n == 0`, `M[k-min(n,k):]` (the newest `n`) for `n > 0`, and
`M[:min(abs(n),k)]` (the oldest `abs(n)`) for `n < 0`. -/
def select (M : List String) (n : Int) : List String :=
  if n = 0 then M
  else if 0 < n then M.drop (M.length - min n.toNat M.length)
  else M.take (min (-n).toNat M.length)

/-- Stated from the claim wording for the deletion split: with `n > 0`
delete the entries of `M` other than the newest `n`; with `n < 0` delete
the oldest `abs(n)` entries; with `n == 0` delete every entry. -/
def spec_delete_rm (M : List String) (n : Int) : List String :=
  if n = 0 then M
  else if 0 < n then M.take (M.length - n.toNat)
  else M.take (-n).toNat

/-- Stated from the claim wording for the retained side of the deletion
split: with `n > 0` the newest `n` entries are recorded as kept; with
`n < 0` the remainder after the oldest `abs(n)`; with `n == 0` nothing. -/
def spec_delete_keep (M : List String) (n : Int) : List String :=
  if n = 0 then []
  else if 0 < n then M.drop (M.length - n.toNat)
  else M.drop (-n).toNat

/-- Warnings emitted by `check_safety`, one tag per message text
`skipping <filename>; safety=<level>; <submsg>`. -/
inductive SafetyWarn where
  | protectedFile
  | previouslyKept
  | requiredForReports
  | requiredForRestart
deriving DecidableEq

/-- `CaseArchivist.check_safety(filename)` as a pure function of the
session state.  `protf` is the oracle for
`match_pats(filename, cls._protected_files)`; `kept`, `reportFiles` and
`restartFiles` are `_kept_files`, `_report_files` and `_restart_files`;
`safety` is `_safety`.  Returns the boolean result together with the
warnings emitted. -/
def check_safety (protf : String → Bool) (kept reportFiles restartFiles : List String)
    (safety : String) (filename : String) : Bool × List SafetyWarn :=
  if safety = "none" then (true, [])
  else if protf filename then (false, [SafetyWarn.protectedFile])
  else if filename ∈ kept then (false, [SafetyWarn.previouslyKept])
  else if safety = "status" then (true, [])
  else if filename ∈ reportFiles then (false, [SafetyWarn.requiredForReports])
  else if safety = "report" then (true, [])
  else if filename ∈ restartFiles then (true, [SafetyWarn.requiredForRestart])
  else (true, [])

/-- A message on the archivist's log streams: `log` entries go to the
primary log, `warn` entries to the warning log. -/
inductive LogMsg where
  | log (msg : String)
  | warn (msg : String)
deriving DecidableEq

/-- A filesystem mutation performed by the embedded code. -/
inductive FsEffect where
  | copyFile (src dst : String)
  | mkdir (path : String)
  | removeFile (path : String)
deriving DecidableEq

/-- Status of the two copies of one file for `archive_file`: whether the
local source and the archive-side copy exist, and their modification
times. -/
structure FileCtx where
  isfile_local : Bool
  isfile_archive : Bool
  mtime_local : Nat
  mtime_archive : Nat
deriving DecidableEq

/-- `CaseArchivist.archive_file(fname)`: warn and stop if the local
source is missing; if the archive copy exists and is strictly newer,
log `up-to-date` and stop; otherwise (logging `rm ... (updating)` first
when an archive copy exists) log the copy message and copy
`fname` to `os.path.join(adir, fname)`.  The method never consults the
session's `_test` flag, so the unused `_test` parameter records that the
output is independent of it. -/
def archive_file (adir fname : String) (ctx : FileCtx) (_test : Bool) :
    List LogMsg × List FsEffect :=
  if ¬ ctx.isfile_local then
    ([LogMsg.warn ("cannot cp " ++ fname ++ "; no such file")], [])
  else if ctx.isfile_archive ∧ ctx.mtime_archive > ctx.mtime_local then
    ([LogMsg.log ("ARCHIVE/" ++ fname ++ " up-to-date")], [])
  else
    ((if ctx.isfile_archive then
        [LogMsg.log ("rm ARCHIVE/" ++ fname ++ " (updating)")]
      else []) ++
      [LogMsg.log (fname ++ " --> ARCHIVE/" ++ fname)],
     [FsEffect.copyFile fname (pyjoin adir fname)])

/-- `_posix`: replace `os.sep` by `/`; on POSIX `os.sep` is already `/`,
so the substitution is the identity. -/
def posixpath (path : String) : String :=
  path

/-- `CaseArchivist.make_case_archivedir()`: return immediately in test
mode; otherwise split the case name on `/` (dropping the last component
for a `full` archive type), and walking down from the archive root
create (and log `mkdir`) each missing level.  `isdir` is the
`os.path.isdir` oracle. -/
def make_case_archivedir (isdir : String → Bool) (archivedir casename atype : String)
    (test : Bool) : List LogMsg × List FsEffect :=
  if test then ([], [])
  else
    let caseparts := splitSlash casename
    let caseparts := if atype = "full" then caseparts.dropLast else caseparts
    let res := caseparts.foldl
      (fun acc part =>
        let fullpath := pyjoin acc.1 part
        if isdir fullpath then (fullpath, acc.2.1, acc.2.2)
        else (fullpath,
              acc.2.1 ++ [LogMsg.log ("mkdir " ++ posixpath fullpath)],
              acc.2.2 ++ [FsEffect.mkdir fullpath]))
      (archivedir, ([], []))
    res.2

/-- `_safe_mtime`: modification time of a file, or `0` when the file no
longer exists (deleted between scan and sort). -/
def safe_mtime (isfile : String → Bool) (getmtime : String → Nat) (fname : String) : Nat :=
  if isfile fname then getmtime fname else 0

/-- `CaseArchivist.search(pat)`: build the raw match dictionary (one
empty-label group from `glob.glob` when the search method is `glob`,
otherwise the groups from `rematch`), then sort each group's list by
ascending `_safe_mtime` with Python's stable sort.  `globf` and
`rematchf` are the filesystem oracles for the two search modes. -/
def search (method : String) (globf : String → List String)
    (rematchf : String → List (String × List String))
    (isfile : String → Bool) (getmtime : String → Nat) (pat : String) :
    List (String × List String) :=
  (if method = "glob" then [("", globf pat)] else rematchf pat).map fun gp =>
    (gp.1, gp.2.mergeSort fun a b =>
      decide (safe_mtime isfile getmtime a ≤ safe_mtime isfile getmtime b))

/-- `_assert_relpath`: raise `ValueError` when the path is absolute. -/
def assert_relpath (fname : String) : Except PyErr Unit :=
  if isabs fname then Except.error PyErr.valueError else Except.ok ()

/-- `CaseArchivist.abspath_archive(fname)`: reject absolute inputs, then
join under the archive root and case name. -/
def abspath_archive (archivedir casename fname : String) : Except PyErr String :=
  match assert_relpath fname with
  | Except.error e => Except.error e
  | Except.ok _ => Except.ok (pyjoin (pyjoin archivedir casename) fname)

/-- `CaseArchivist.abspath_local(fname)`: reject absolute inputs, then
join under the local case root. -/
def abspath_local (root_dir fname : String) : Except PyErr String :=
  match assert_relpath fname with
  | Except.error e => Except.error e
  | Except.ok _ => Except.ok (pyjoin root_dir fname)

/-- One step in the phase-level trace of `run_progress` and its level-2
helpers.  The constructors `saveReportStep` and `saveRestartStep` are
the steps that `save_reportfiles` / `save_restartfiles` would contribute
if they were invoked. -/
inductive ProgressStep where
  | beginStep (safety : String) (test : Bool)
  | logStep (msg : String)
  | searchStep (pat : String)
  | archiveFilesStep (pat : String) (n : Int)
  | tarArchiveStep (tarname : String)
  | deleteFilesStep (pat : String) (n : Int)
  | deleteDirsStep (pat : String) (n : Int)
  | saveReportStep
  | saveRestartStep
deriving DecidableEq

/-- `_progress_copy_files`: log the phase banner, then for each pattern
of the `ProgressArchiveFiles` option search and archive. -/
def progress_copy_files (searchopt : List (String × Int)) : List ProgressStep :=
  ProgressStep.logStep "begin *ProgressArchiveFiles*" ::
    searchopt.flatMap fun pn =>
      [ProgressStep.searchStep pn.1, ProgressStep.archiveFilesStep pn.1 pn.2]

/-- `_progress_tar_files`: log the phase banner, then call `tar_archive`
for each group of the `ProgressTarGroups` option. -/
def progress_tar_files (taropt : List (String × List (String × Int))) : List ProgressStep :=
  ProgressStep.logStep "begin *ProgressTarGroups*" ::
    taropt.flatMap fun grp => [ProgressStep.tarArchiveStep grp.1]

/-- `_progress_delete_files`: log the phase banner, then for each
pattern of the `ProgressDeleteFiles` option search and delete. -/
def progress_delete_files (searchopt : List (String × Int)) : List ProgressStep :=
  ProgressStep.logStep "begin *ProgressDeleteFiles*" ::
    searchopt.flatMap fun pn =>
      [ProgressStep.searchStep pn.1, ProgressStep.deleteFilesStep pn.1 pn.2]

/-- `_progress_delete_dirs`: log the phase banner, then for each pattern
of the `ProgressDeleteDirs` option search and delete directories. -/
def progress_delete_dirs (searchopt : List (String × Int)) : List ProgressStep :=
  ProgressStep.logStep "begin *ProgressDeleteDirs*" ::
    searchopt.flatMap fun pn =>
      [ProgressStep.searchStep pn.1, ProgressStep.deleteDirsStep pn.1 pn.2]

/-- `CaseArchivist.run_progress(test)` as a phase-level trace: `begin`
with safety `restart`, the overall log line, then the four level-2
phases in the source's fixed order.  Neither `run_progress` nor any of
the level-2 helpers calls `save_reportfiles` or `save_restartfiles`. -/
def run_progress (copyopt : List (String × Int))
    (taropt : List (String × List (String × Int)))
    (delfileopt deldiropt : List (String × Int)) (test : Bool) : List ProgressStep :=
  [ProgressStep.beginStep "restart" test, ProgressStep.logStep "run *Progress*"] ++
    progress_copy_files copyopt ++
    progress_tar_files taropt ++
    progress_delete_files delfileopt ++
    progress_delete_dirs deldiropt

/-- Recognizer for the steps that would compute and store the
report-protected or restart-protected path sets. -/
def is_save_step (s : ProgressStep) : Bool :=
  match s with
  | ProgressStep.saveReportStep => true
  | ProgressStep.saveRestartStep => true
  | _ => false

/-- The branch on the sign of `n` shared by `archive_files` and
`search_targroups` computes exactly the spec's `select`. -/
theorem slice_sign_eq_select (M : List String) (n : Int) :
    (if n < 0 then pySliceTo M (-n) else pySliceFrom M (-n)) = select M n := by
  rcases lt_trichotomy n 0 with hlt | heq | hgt
  · simp only [if_pos hlt, pySliceTo, select,
      if_neg (by omega : ¬ n = 0), if_neg (by omega : ¬ (0:Int) < n),
      if_neg (by omega : ¬ (-n < 0))]
    rw [List.take_eq_take]
    omega
  · subst heq
    simp [pySliceFrom, select]
  · simp only [if_neg (by omega : ¬ n < 0), pySliceFrom, select,
      if_neg (by omega : ¬ n = 0), if_pos hgt, if_pos (by omega : (-n : Int) < 0),
      neg_neg]
    congr 1
    omega

/-- `delete_split` computes exactly the deleted/kept pair described by
the claim wording. -/
theorem delete_split_eq_spec (M : List String) (n : Int) :
    delete_split M n = (spec_delete_rm M n, spec_delete_keep M n) := by
  rcases lt_trichotomy n 0 with hlt | heq | hgt
  · simp only [delete_split, spec_delete_rm, spec_delete_keep,
      if_neg (by omega : ¬ n = 0), if_neg (by omega : ¬ (0:Int) < n),
      pySliceTo, pySliceFrom, if_neg (by omega : ¬ (-n : Int) < 0)]
  · subst heq
    simp [delete_split, spec_delete_rm, spec_delete_keep]
  · simp only [delete_split, spec_delete_rm, spec_delete_keep,
      if_neg (by omega : ¬ n = 0), if_pos hgt,
      pySliceTo, pySliceFrom, if_pos (by omega : (-n : Int) < 0), neg_neg]

/-- C1: on the code as written, `begin` never completes: for every valid
safety level and test flag, even with the archive root present, the call
`self.make_case_archivedir(test)` raises `TypeError` (the method accepts
no positional argument), so `begin("none", False)` and
`begin("restart", True)` both raise instead of returning. -/
theorem begin_raises_typeerror :
    begin true "none" false = Except.error PyErr.typeError ∧
    begin true "restart" true = Except.error PyErr.typeError := by
  constructor <;> rfl

/-- C2: for every match list `M` and integer `n`, `delete_files` (and
likewise `delete_dirs`) passes to deletion exactly the entries other
than the newest `n` when `n > 0` (recording the newest `n` as kept),
exactly the oldest `abs(n)` entries when `n < 0` (leaving the
remainder), and every entry when `n == 0`. -/
theorem delete_retention_split (M : List String) (n : Int) :
    delete_files [("", M)] n = (spec_delete_rm M n, spec_delete_keep M n) ∧
    delete_dirs [("", M)] n = (spec_delete_rm M n, spec_delete_keep M n) := by
  constructor <;>
    simp [delete_files, delete_dirs, delete_split_eq_spec]

/-- C3: for every group match list and integer `n`, `archive_files`
copies exactly `select(M, n)` for each group, and `search_targroups`
includes exactly `select(M, n)` of each group in the tar member list. -/
theorem archive_copies_select (matchdict : List (String × List String)) (n : Int)
    (searchf : String → List (String × List String)) (searchopt : List (String × Int)) :
    archive_files matchdict n = matchdict.flatMap (fun gp => select gp.2 n) ∧
    search_targroups searchf searchopt =
      searchopt.flatMap fun pn => (searchf pn.1).flatMap fun gp => select gp.2 pn.2 := by
  constructor
  · simp only [archive_files, slice_sign_eq_select]
  · simp only [search_targroups, slice_sign_eq_select]

/-- C5 counterexample: a `run_progress` trace that reaches the
delete-files phase contains no step computing or storing the report- or
restart-protected path sets, so those sets are not computed before the
deletion phases. -/
theorem run_progress_delete_without_save :
    ProgressStep.deleteFilesStep "flow.dat" 0 ∈ run_progress [] [] [("flow.dat", 0)] [] false ∧
    ProgressStep.saveReportStep ∉ run_progress [] [] [("flow.dat", 0)] [] false ∧
    ProgressStep.saveRestartStep ∉ run_progress [] [] [("flow.dat", 0)] [] false := by
  decide

/-- A flat-mapped phase contributes no save step when no per-item block
contains one. -/
theorem filter_save_flatMap {α : Type} (l : List α) (f : α → List ProgressStep)
    (hf : ∀ x, (f x).filter is_save_step = []) :
    (l.flatMap f).filter is_save_step = [] := by
  induction l with
  | nil => rfl
  | cons hd tl ih => simp [List.flatMap_cons, List.filter_append, hf, ih]

/-- C5 amended: for every configuration and test flag, `run_progress`
runs begin, the overall log, then the copy, tar, delete-files and
delete-dirs phases in fixed order, and at no point computes or stores
the report- or restart-protected path sets (`save_reportfiles` /
`save_restartfiles` are never invoked), so `check_safety` sees those
lists exactly as initialized. -/
theorem run_progress_never_saves (copyopt : List (String × Int))
    (taropt : List (String × List (String × Int)))
    (delfileopt deldiropt : List (String × Int)) (t : Bool) :
    (run_progress copyopt taropt delfileopt deldiropt t).filter is_save_step = [] := by
  simp only [run_progress, progress_copy_files, progress_tar_files,
    progress_delete_files, progress_delete_dirs, List.filter_append,
    List.filter_cons, List.append_assoc, List.cons_append, List.nil_append]
  rw [filter_save_flatMap, filter_save_flatMap, filter_save_flatMap, filter_save_flatMap]
  · rfl
  all_goals intro x
  all_goals rfl

/-- C4: dry-run is not equivalent: with the archive subdirectory still
missing, `make_case_archivedir` logs nothing under the dry-run flag but
logs the two `mkdir` lines without it (different log sequences), and
`archive_file` performs its copy even when the session's test flag is
set (a filesystem mutation under dry-run), contrary to `begin`'s
documented test semantics. -/
theorem dryrun_not_equivalent :
    (make_case_archivedir (fun _ => false) "/arch" "grp/case" "sub" true).1 = [] ∧
    (make_case_archivedir (fun _ => false) "/arch" "grp/case" "sub" false).1 =
      [LogMsg.log "mkdir /arch/grp", LogMsg.log "mkdir /arch/grp/case"] ∧
    (archive_file "/arch" "a.dat" ⟨true, false, 5, 0⟩ true).2 =
      [FsEffect.copyFile "a.dat" "/arch/a.dat"] := by
  refine ⟨rfl, ?_, ?_⟩ <;> decide

/-- C8 counterexample: with local source and archive copy both present
and equal modification times (5 and 5), the archive copy's time is
newer-than-or-equal to the source's, yet `archive_file` does not skip:
it performs the copy and does not log `up-to-date`. -/
theorem archive_file_equal_mtime_copies :
    5 ≤ (5 : Nat) ∧
    (archive_file "/arch" "f" ⟨true, true, 5, 5⟩ false).2 ≠ [] ∧
    LogMsg.log "ARCHIVE/f up-to-date" ∉ (archive_file "/arch" "f" ⟨true, true, 5, 5⟩ false).1 := by
  refine ⟨le_refl 5, ?_, ?_⟩ <;> decide

/-- C8 amended: when the local source and the archive copy both exist,
`archive_file` skips and logs `up-to-date` exactly when the archive
copy's modification time is strictly newer than the source's; otherwise
(older or equal) it logs and performs the copy, overwriting the archive
copy. -/
theorem archive_file_mtime_policy (adir fname : String) (ctx : FileCtx) (t : Bool)
    (hl : ctx.isfile_local = true) (ha : ctx.isfile_archive = true) :
    (ctx.mtime_archive > ctx.mtime_local →
      archive_file adir fname ctx t =
        ([LogMsg.log ("ARCHIVE/" ++ fname ++ " up-to-date")], [])) ∧
    (ctx.mtime_archive ≤ ctx.mtime_local →
      archive_file adir fname ctx t =
        ([LogMsg.log ("rm ARCHIVE/" ++ fname ++ " (updating)"),
          LogMsg.log (fname ++ " --> ARCHIVE/" ++ fname)],
         [FsEffect.copyFile fname (pyjoin adir fname)])) := by
  constructor
  · intro hgt
    simp [archive_file, hl, ha, hgt]
  · intro hle
    simp [archive_file, hl, ha, show ¬ ctx.mtime_local < ctx.mtime_archive by omega]

/-- Witness for the C8 amended theorem at a concrete stale archive copy
(source time 7, archive time 3): the copy branch runs. -/
theorem archive_file_mtime_policy_witness :
    archive_file "/arch" "f" ⟨true, true, 7, 3⟩ false =
      ([LogMsg.log "rm ARCHIVE/f (updating)", LogMsg.log "f --> ARCHIVE/f"],
       [FsEffect.copyFile "f" "/arch/f"]) := by
  have h := (archive_file_mtime_policy "/arch" "f" ⟨true, true, 7, 3⟩ false rfl rfl).2 (by decide)
  rw [h]
  decide

/-- C6: for every session state and file name, if `check_safety` blocks
a deletion at level `status` it also blocks it at level `report`: the
set of paths blocked at `status` is a subset of the set blocked at
`report`. -/
theorem check_safety_status_subset_report (protf : String → Bool)
    (kept reportFiles restartFiles : List String) (fname : String)
    (h : (check_safety protf kept reportFiles restartFiles "status" fname).1 = false) :
    (check_safety protf kept reportFiles restartFiles "report" fname).1 = false := by
  unfold check_safety at h ⊢
  by_cases hp : protf fname
  · simp [hp]
  · by_cases hk : fname ∈ kept
    · simp [hp, hk]
    · simp [hp, hk] at h

/-- Witness for C6 at a concrete state where the protected-pattern check
fires: blocked at `status`, hence blocked at `report`. -/
theorem check_safety_status_subset_report_witness :
    (check_safety (fun _ => true) [] [] [] "status" "x").1 = false ∧
    (check_safety (fun _ => true) [] [] [] "report" "x").1 = false :=
  ⟨by decide, check_safety_status_subset_report (fun _ => true) [] [] [] "x" (by decide)⟩

/-- C7: for every session state and file name, `check_safety` at level
`restart` returns the same boolean as at level `report`; membership in
the restart-protected list only adds the `required for restart` warning
(when the check is reached, i.e. the result is `true`) and never makes
the result `false`. -/
theorem check_safety_restart_eq_report (protf : String → Bool)
    (kept reportFiles restartFiles : List String) (fname : String) :
    (check_safety protf kept reportFiles restartFiles "restart" fname).1 =
      (check_safety protf kept reportFiles restartFiles "report" fname).1 ∧
    (fname ∈ restartFiles →
      (check_safety protf kept reportFiles restartFiles "restart" fname).1 = true →
      (check_safety protf kept reportFiles restartFiles "restart" fname).2 =
        [SafetyWarn.requiredForRestart]) := by
  unfold check_safety
  by_cases hp : protf fname <;> by_cases hk : fname ∈ kept <;>
    by_cases hr : fname ∈ reportFiles <;> by_cases hs : fname ∈ restartFiles <;>
    simp [hp, hk, hr, hs]

/-- Witness for C7 at a concrete state whose file is restart-protected
only: both levels return `true` and the restart warning is emitted. -/
theorem check_safety_restart_eq_report_witness :
    (check_safety (fun _ => false) [] [] ["x"] "restart" "x").1 =
      (check_safety (fun _ => false) [] [] ["x"] "report" "x").1 ∧
    (check_safety (fun _ => false) [] [] ["x"] "restart" "x").2 =
      [SafetyWarn.requiredForRestart] :=
  ⟨(check_safety_restart_eq_report (fun _ => false) [] [] ["x"] "x").1,
   (check_safety_restart_eq_report (fun _ => false) [] [] ["x"] "x").2 (by decide) (by decide)⟩

/-- C10: for every absolute input both path resolvers raise
`ValueError`; for every relative input `abspath_local` returns the input
joined under the local case root and `abspath_archive` returns it joined
under the archive root and case name. -/
theorem abspath_rejects_absolute (root_dir archivedir casename fname : String) :
    (isabs fname = true →
      abspath_local root_dir fname = Except.error PyErr.valueError ∧
      abspath_archive archivedir casename fname = Except.error PyErr.valueError) ∧
    (isabs fname = false →
      abspath_local root_dir fname = Except.ok (pyjoin root_dir fname) ∧
      abspath_archive archivedir casename fname =
        Except.ok (pyjoin (pyjoin archivedir casename) fname)) := by
  constructor <;> intro h <;>
    simp [abspath_local, abspath_archive, assert_relpath, h]

/-- Witness for C10 at a concrete absolute path (rejected) and a
concrete relative path (resolved under each root). -/
theorem abspath_rejects_absolute_witness :
    (abspath_local "/case" "/etc/x" = Except.error PyErr.valueError ∧
     abspath_archive "/arch" "g/c" "/etc/x" = Except.error PyErr.valueError) ∧
    (abspath_local "/case" "run.log" = Except.ok "/case/run.log" ∧
     abspath_archive "/arch" "g/c" "run.log" = Except.ok "/arch/g/c/run.log") := by
  refine ⟨(abspath_rejects_absolute "/case" "/arch" "g/c" "/etc/x").1 (by decide), ?_, ?_⟩
  · have h := ((abspath_rejects_absolute "/case" "/arch" "g/c" "run.log").2 (by decide)).1
    have hj : pyjoin "/case" "run.log" = "/case/run.log" := by decide
    rw [h, hj]
  · have h := ((abspath_rejects_absolute "/case" "/arch" "g/c" "run.log").2 (by decide)).2
    have hj : pyjoin (pyjoin "/arch" "g/c") "run.log" = "/arch/g/c/run.log" := by decide
    rw [h, hj]

/-- Stable sort by a natural-number key yields a list that is pairwise
nondecreasing in that key. -/
theorem pairwise_mergeSort_key {α : Type} (key : α → Nat) (l : List α) :
    List.Pairwise (fun a b => key a ≤ key b)
      (l.mergeSort fun a b => decide (key a ≤ key b)) := by
  have htrans : ∀ a b c : α,
      (decide (key a ≤ key b)) = true → (decide (key b ≤ key c)) = true →
      (decide (key a ≤ key c)) = true := by
    intro a b c hab hbc
    simp only [decide_eq_true_eq] at *
    omega
  have htotal : ∀ a b : α, ((decide (key a ≤ key b)) || (decide (key b ≤ key a))) = true := by
    intro a b
    simp [Nat.le_total]
  have h := List.sorted_mergeSort htrans htotal l
  exact h.imp fun hab => by simpa using hab

/-- C9: every group list returned by `search` is sorted ascending by
`_safe_mtime` (a path that no longer exists counts as modification time
zero) and is a permutation of the corresponding raw group produced by
the glob or regex scan. -/
theorem search_groups_sorted (method : String) (globf : String → List String)
    (rematchf : String → List (String × List String))
    (isfile : String → Bool) (getmtime : String → Nat) (pat : String)
    (gp : String × List String)
    (hmem : gp ∈ search method globf rematchf isfile getmtime pat) :
    List.Pairwise
      (fun a b => safe_mtime isfile getmtime a ≤ safe_mtime isfile getmtime b) gp.2 ∧
    ∃ ms, (gp.1, ms) ∈ (if method = "glob" then [("", globf pat)] else rematchf pat) ∧
      gp.2.Perm ms := by
  unfold search at hmem
  rw [List.mem_map] at hmem
  obtain ⟨q, hq, rfl⟩ := hmem
  refine ⟨pairwise_mergeSort_key (safe_mtime isfile getmtime) q.2, q.2, ?_, ?_⟩
  · simpa using hq
  · exact List.mergeSort_perm q.2 _

/-- Witness for C9 with the glob method returning two files of which
only the first still exists (time 5): the vanished file sorts first as
time zero. -/
theorem search_groups_sorted_witness :
    (("", ["b", "a"]) ∈
      search "glob" (fun _ => ["a", "b"]) (fun _ => [])
        (fun s => decide (s = "a")) (fun _ => 5) "p") ∧
    (List.Pairwise
      (fun x y => safe_mtime (fun s => decide (s = "a")) (fun _ => 5) x ≤
        safe_mtime (fun s => decide (s = "a")) (fun _ => 5) y) ["b", "a"] ∧
     ∃ ms, ("", ms) ∈ [(("" : String), (["a", "b"] : List String))] ∧
       (["b", "a"] : List String).Perm ms) := by
  have hmem : (("", ["b", "a"]) : String × List String) ∈
      search "glob" (fun _ => ["a", "b"]) (fun _ => [])
        (fun s => decide (s = "a")) (fun _ => 5) "p" := by
    simp [search, List.mergeSort, safe_mtime]
  have h := search_groups_sorted "glob" (fun _ => ["a", "b"]) (fun _ => [])
    (fun s => decide (s = "a")) (fun _ => 5) "p" ("", ["b", "a"]) hmem
  exact ⟨hmem, by simpa using h⟩
